import Mathlib

/-!
Shallow embedding of `src/document.rs` (arangors document module): request
option sets, the `DocumentResponse` decoder, and the flattened `Document`
envelope, together with theorems checking the module's specification.
-/

namespace Arangors

/-- A parsed JSON value, as `serde_json::Value`: null, booleans, numbers
(integers suffice for the properties below), strings, arrays, and objects
(objects as association lists with unique keys, as `serde_json::Map`). -/
inductive Json where
  | null
  | bool (b : Bool)
  | num (n : Int)
  | str (s : String)
  | arr (elems : List Json)
  | obj (fields : List (String × Json))

/-- `Map::contains_key`. -/
def containsKey (fields : List (String × Json)) (k : String) : Bool :=
  fields.any (fun p => p.1 == k)

/-- Key lookup in a JSON object (`Map::get` / the value `Map::remove` hands out). -/
def getKey (fields : List (String × Json)) (k : String) : Option Json :=
  (fields.find? (fun p => p.1 == k)).map (fun p => p.2)

/-- `serde_json::from_value::<String>`: succeeds exactly on JSON strings. -/
def asString : Json → Option String
  | .str s => some s
  | _ => none

/-- Look a key up and parse its value as a string. -/
def getString (fields : List (String × Json)) (k : String) : Option String :=
  (getKey fields k).bind asString

/-- One character of serde_json's compact string escaping. -/
def escapeChar (c : Char) : String :=
  if c = '"' then "\\\""
  else if c = '\\' then "\\\\"
  else if c = '\x08' then "\\b"
  else if c = '\x0c' then "\\f"
  else if c = '\n' then "\\n"
  else if c = '\r' then "\\r"
  else if c = '\t' then "\\t"
  else if c.toNat < 32 then
    "\\u00" ++ String.singleton ("0123456789abcdef".toList.getD (c.toNat / 16) '0')
            ++ String.singleton ("0123456789abcdef".toList.getD (c.toNat % 16) '0')
  else String.singleton c

/-- A JSON string literal, quoted and escaped as serde_json writes it. -/
def renderString (s : String) : String :=
  "\"" ++ String.join (s.data.map escapeChar) ++ "\""

mutual
/-- Compact JSON text of a value: the `Display` implementation of
`serde_json::Value`, which `Value::to_string()` calls. -/
def render : Json → String
  | .null => "null"
  | .bool true => "true"
  | .bool false => "false"
  | .num n => toString n
  | .str s => renderString s
  | .arr es => "[" ++ renderElems es ++ "]"
  | .obj fs => "\x7b" ++ renderFields fs ++ "\x7d"

/-- Comma-separated rendering of array elements. -/
def renderElems : List Json → String
  | [] => ""
  | [e] => render e
  | e :: es => render e ++ "," ++ renderElems es

/-- Comma-separated rendering of object members. -/
def renderFields : List (String × Json) → String
  | [] => ""
  | [(k, v)] => renderString k ++ ":" ++ render v
  | (k, v) :: fs => renderString k ++ ":" ++ render v ++ "," ++ renderFields fs
end

/-- Modelled from the spec: the server-reported error detail (code, message).
`ArangoError` itself lives outside this module (`crate::ArangoError`); the
claims below use it only as the payload of the `Err` variant. -/
structure ArangoError where
  code : Nat
  message : String
deriving DecidableEq

/-- The document identity triple (`DocumentHeader` in `src/document.rs`). -/
structure DocumentHeader where
  _id : String
  _key : String
  _rev : String
deriving DecidableEq

/-- `DocumentResponse<T>`: the three-way response outcome. -/
inductive DocumentResponse (T : Type) where
  | Silent : DocumentResponse T
  | Response (header : DocumentHeader) (old : Option T) (new : Option T)
      (_old_rev : Option String) : DocumentResponse T
  | Err (e : ArangoError) : DocumentResponse T
deriving DecidableEq

/-- `DocumentResponse::is_silent`. -/
def DocumentResponse.is_silent {T : Type} : DocumentResponse T → Bool
  | .Silent => true
  | _ => false

/-- `DocumentResponse::has_response`. -/
def DocumentResponse.has_response {T : Type} : DocumentResponse T → Bool
  | .Response _ _ _ _ => true
  | _ => false

/-- `DocumentResponse::header`: `Some(header)` on `Response`, `None` otherwise. -/
def DocumentResponse.header {T : Type} : DocumentResponse T → Option DocumentHeader
  | .Response h _ _ _ => some h
  | _ => none

/-- `DocumentResponse::old_doc` (`Option::from(&Option<T>)` mirrors the stored option). -/
def DocumentResponse.old_doc {T : Type} : DocumentResponse T → Option T
  | .Response _ old _ _ => old
  | _ => none

/-- `DocumentResponse::new_doc`. -/
def DocumentResponse.new_doc {T : Type} : DocumentResponse T → Option T
  | .Response _ _ new _ => new
  | _ => none

/-- `DocumentResponse::old_rev`. -/
def DocumentResponse.old_rev {T : Type} : DocumentResponse T → Option String
  | .Response _ _ _ r => r
  | _ => none

/-- Outcome of running `<DocumentResponse<T> as Deserialize>::deserialize` on an
already-parsed `serde_json::Value`: either a Rust panic (an `unwrap` on
`None`/`Err`, an uncatchable fault) or a returned `DocumentResponse` value.
No `D::Error` case is needed: on an already-parsed `Value` the initial
`Value::deserialize(deserializer)?` cannot fail, and no other line of the
implementation returns an error. -/
inductive DecodeResult (T : Type) where
  | fault : DecodeResult T
  | ok (value : DocumentResponse T) : DecodeResult T
deriving DecidableEq

/-- The `Deserialize` implementation of `DocumentResponse<T>` in
`src/document.rs`, line by line. `decT` stands for `T::deserialize` on a
`Value` (`Result` collapsed through `.ok()` to an `Option`).
- `obj.as_object_mut().unwrap()`: non-objects are a `fault`;
- `if json.contains_key("_key") != true`: no `_key` key gives `Silent`;
- otherwise `_id`/`_key`/`_rev` are each taken out with
  `serde_json::from_value(json.remove(k).unwrap()).unwrap()`: a missing key or
  a non-string value is a `fault`;
- `old`/`new` are `T::deserialize(json.remove(k).unwrap()).ok()` when the key
  is present, `None` otherwise;
- `_old_rev` is `Some(json.remove("_old_rev").unwrap().to_string())` when
  present (`to_string` being `Display`, i.e. `render`), `None` otherwise. -/
def deserializeDocumentResponse {T : Type} (decT : Json → Option T) :
    Json → DecodeResult T
  | Json.obj fields =>
    if containsKey fields "_key" = false then
      DecodeResult.ok DocumentResponse.Silent
    else
      match getKey fields "_id" with
      | none => DecodeResult.fault
      | some idVal =>
        match asString idVal with
        | none => DecodeResult.fault
        | some i =>
          match getKey fields "_key" with
          | none => DecodeResult.fault
          | some keyVal =>
            match asString keyVal with
            | none => DecodeResult.fault
            | some k =>
              match getKey fields "_rev" with
              | none => DecodeResult.fault
              | some revVal =>
                match asString revVal with
                | none => DecodeResult.fault
                | some r =>
                  let old := match getKey fields "old" with
                    | some v => decT v
                    | none => none
                  let new := match getKey fields "new" with
                    | some v => decT v
                    | none => none
                  let orv := match getKey fields "_old_rev" with
                    | some v => some (render v)
                    | none => none
                  DecodeResult.ok (DocumentResponse.Response ⟨i, k, r⟩ old new orv)
  | _ => DecodeResult.fault

/-- A payload decoder for a unit payload; any JSON value parses. -/
def unitDec : Json → Option Unit := fun _ => some ()

/-- serde serialization of an `Option<bool>` struct field that carries no
`skip_serializing_if` attribute: `None` becomes JSON `null`, `Some(b)` the
boolean itself. -/
def serializeOptionBool : Option Bool → Json
  | none => Json.null
  | some b => Json.bool b

/-- `DocumentInsertOptions` (the `#[cfg(arango3_7)]` field `overwrite_mode` is
not compiled in a default build and is left out). -/
structure DocumentInsertOptions where
  wait_for_sync : Option Bool
  return_new : Option Bool
  return_old : Option Bool
  silent : Option Bool
  overwrite : Option Bool
deriving DecidableEq

/-- The `TypedBuilder` builder of `DocumentInsertOptions`: every field carries
`#[builder(default)]`, so each starts out `None`; `strip_option` setters (not
needed by the claims) would overwrite a field with `Some`. -/
structure DocumentInsertOptionsBuilder where
  wait_for_sync : Option Bool := none
  return_new : Option Bool := none
  return_old : Option Bool := none
  silent : Option Bool := none
  overwrite : Option Bool := none

/-- `DocumentInsertOptions::builder()`. -/
def DocumentInsertOptions.builder : DocumentInsertOptionsBuilder := {}

/-- `.build()`: hand each (possibly defaulted) builder field to the struct. -/
def DocumentInsertOptionsBuilder.build (b : DocumentInsertOptionsBuilder) :
    DocumentInsertOptions :=
  ⟨b.wait_for_sync, b.return_new, b.return_old, b.silent, b.overwrite⟩

/-- `impl Default for DocumentInsertOptions` calls `Self::builder().build()`. -/
def DocumentInsertOptions.default : DocumentInsertOptions :=
  DocumentInsertOptions.builder.build

/-- serde `Serialize` of `DocumentInsertOptions` with
`#[serde(rename_all = "camelCase")]`: every field in declaration order under
its camelCase name. -/
def DocumentInsertOptions.serialize (o : DocumentInsertOptions) : Json :=
  Json.obj [("waitForSync", serializeOptionBool o.wait_for_sync),
            ("returnNew", serializeOptionBool o.return_new),
            ("returnOld", serializeOptionBool o.return_old),
            ("silent", serializeOptionBool o.silent),
            ("overwrite", serializeOptionBool o.overwrite)]

/-- `DocumentUpdateOptions`. -/
structure DocumentUpdateOptions where
  keep_null : Option Bool
  merge_objects : Option Bool
  wait_for_sync : Option Bool
  ignore_revs : Option Bool
  return_new : Option Bool
  return_old : Option Bool
  silent : Option Bool
deriving DecidableEq

/-- Builder of `DocumentUpdateOptions`; all fields default to `None`. -/
structure DocumentUpdateOptionsBuilder where
  keep_null : Option Bool := none
  merge_objects : Option Bool := none
  wait_for_sync : Option Bool := none
  ignore_revs : Option Bool := none
  return_new : Option Bool := none
  return_old : Option Bool := none
  silent : Option Bool := none

/-- `DocumentUpdateOptions::builder()`. -/
def DocumentUpdateOptions.builder : DocumentUpdateOptionsBuilder := {}

/-- `.build()` for the update builder. -/
def DocumentUpdateOptionsBuilder.build (b : DocumentUpdateOptionsBuilder) :
    DocumentUpdateOptions :=
  ⟨b.keep_null, b.merge_objects, b.wait_for_sync, b.ignore_revs,
   b.return_new, b.return_old, b.silent⟩

/-- `impl Default for DocumentUpdateOptions`. -/
def DocumentUpdateOptions.default : DocumentUpdateOptions :=
  DocumentUpdateOptions.builder.build

/-- serde `Serialize` of `DocumentUpdateOptions` (camelCase field names). -/
def DocumentUpdateOptions.serialize (o : DocumentUpdateOptions) : Json :=
  Json.obj [("keepNull", serializeOptionBool o.keep_null),
            ("mergeObjects", serializeOptionBool o.merge_objects),
            ("waitForSync", serializeOptionBool o.wait_for_sync),
            ("ignoreRevs", serializeOptionBool o.ignore_revs),
            ("returnNew", serializeOptionBool o.return_new),
            ("returnOld", serializeOptionBool o.return_old),
            ("silent", serializeOptionBool o.silent)]

/-- `DocumentReplaceOptions`. -/
structure DocumentReplaceOptions where
  wait_for_sync : Option Bool
  ignore_revs : Option Bool
  return_new : Option Bool
  return_old : Option Bool
  silent : Option Bool
deriving DecidableEq

/-- Builder of `DocumentReplaceOptions`; all fields default to `None`. -/
structure DocumentReplaceOptionsBuilder where
  wait_for_sync : Option Bool := none
  ignore_revs : Option Bool := none
  return_new : Option Bool := none
  return_old : Option Bool := none
  silent : Option Bool := none

/-- `DocumentReplaceOptions::builder()`. -/
def DocumentReplaceOptions.builder : DocumentReplaceOptionsBuilder := {}

/-- `.build()` for the replace builder. -/
def DocumentReplaceOptionsBuilder.build (b : DocumentReplaceOptionsBuilder) :
    DocumentReplaceOptions :=
  ⟨b.wait_for_sync, b.ignore_revs, b.return_new, b.return_old, b.silent⟩

/-- `impl Default for DocumentReplaceOptions`. -/
def DocumentReplaceOptions.default : DocumentReplaceOptions :=
  DocumentReplaceOptions.builder.build

/-- serde `Serialize` of `DocumentReplaceOptions` (camelCase field names). -/
def DocumentReplaceOptions.serialize (o : DocumentReplaceOptions) : Json :=
  Json.obj [("waitForSync", serializeOptionBool o.wait_for_sync),
            ("ignoreRevs", serializeOptionBool o.ignore_revs),
            ("returnNew", serializeOptionBool o.return_new),
            ("returnOld", serializeOptionBool o.return_old),
            ("silent", serializeOptionBool o.silent)]

/-- `DocumentRemoveOptions`. -/
structure DocumentRemoveOptions where
  wait_for_sync : Option Bool
  return_old : Option Bool
  silent : Option Bool
deriving DecidableEq

/-- Builder of `DocumentRemoveOptions`; all fields default to `None`. -/
structure DocumentRemoveOptionsBuilder where
  wait_for_sync : Option Bool := none
  return_old : Option Bool := none
  silent : Option Bool := none

/-- `DocumentRemoveOptions::builder()`. -/
def DocumentRemoveOptions.builder : DocumentRemoveOptionsBuilder := {}

/-- `.build()` for the remove builder. -/
def DocumentRemoveOptionsBuilder.build (b : DocumentRemoveOptionsBuilder) :
    DocumentRemoveOptions :=
  ⟨b.wait_for_sync, b.return_old, b.silent⟩

/-- `impl Default for DocumentRemoveOptions`. -/
def DocumentRemoveOptions.default : DocumentRemoveOptions :=
  DocumentRemoveOptions.builder.build

/-- serde `Serialize` of `DocumentRemoveOptions` (camelCase field names). -/
def DocumentRemoveOptions.serialize (o : DocumentRemoveOptions) : Json :=
  Json.obj [("waitForSync", serializeOptionBool o.wait_for_sync),
            ("returnOld", serializeOptionBool o.return_old),
            ("silent", serializeOptionBool o.silent)]

/-- `DocumentReadOptions`. -/
inductive DocumentReadOptions where
  | IfNoneMatch (etag : String)
  | IfMatch (etag : String)
  | NoHeader
deriving DecidableEq

/-- `impl Default for DocumentReadOptions` returns `Self::NoHeader`. -/
def DocumentReadOptions.default : DocumentReadOptions := DocumentReadOptions.NoHeader

/-- `DocumentOverwriteMode`. -/
inductive DocumentOverwriteMode where
  | Ignore
  | Replace
  | Update
  | Conflict
deriving DecidableEq

/-- serde `Serialize` of `DocumentOverwriteMode`: the derive carries no
`rename_all` attribute, so each unit variant serializes (externally tagged) as
its exact variant-name string. -/
def DocumentOverwriteMode.serialize : DocumentOverwriteMode → Json
  | .Ignore => Json.str "Ignore"
  | .Replace => Json.str "Replace"
  | .Update => Json.str "Update"
  | .Conflict => Json.str "Conflict"

/-- `Document<T>`: a typed payload together with its identity triple. -/
structure Document (T : Type) where
  header : DocumentHeader
  document : T
deriving DecidableEq

/-- `Document::new(data)`: empty identity, payload as given. -/
def Document.new {T : Type} (data : T) : Document T :=
  ⟨⟨"", "", ""⟩, data⟩

/-- serde serialization of `DocumentHeader` as a field list: each field carries
`#[serde(skip_serializing_if = "String::is_empty")]`, so empty strings are
omitted. -/
def DocumentHeader.serializeFields (h : DocumentHeader) : List (String × Json) :=
  (if h._id = "" then [] else [("_id", Json.str h._id)]) ++
  (if h._key = "" then [] else [("_key", Json.str h._key)]) ++
  (if h._rev = "" then [] else [("_rev", Json.str h._rev)])

/-- serde `Serialize` of `Document<T>`: both `header` and `document` carry
`#[serde(flatten)]`, so their fields are merged into one JSON object. `serT`
stands for the payload's own serialization as a flat field list. -/
def Document.serialize {T : Type} (serT : T → List (String × Json))
    (d : Document T) : Json :=
  Json.obj (d.header.serializeFields ++ serT d.document)

/-- Keys consumed by the flattened `DocumentHeader`; serde's flatten machinery
removes them before the second flattened field (`document`) deserializes. -/
def stripIdentityKeys (fields : List (String × Json)) : List (String × Json) :=
  fields.filter (fun p => !(p.1 == "_id" || p.1 == "_key" || p.1 == "_rev"))

/-- serde `Deserialize` of `Document<T>` (both fields `#[serde(flatten)]`):
the input must be an object; `DocumentHeader` (no `default` attributes)
requires `_id`, `_key`, `_rev` present with string values; the payload is then
deserialized from the fields the header did not consume (`decT` stands for the
payload's deserializer over a field list). Any failure is a decode error
(`none`). -/
def Document.deserialize {T : Type} (decT : List (String × Json) → Option T) :
    Json → Option (Document T)
  | Json.obj fields =>
    match getString fields "_id", getString fields "_key", getString fields "_rev" with
    | some i, some k, some r =>
      match decT (stripIdentityKeys fields) with
      | some t => some ⟨⟨i, k, r⟩, t⟩
      | none => none
    | _, _, _ => none
  | _ => none

/-- The spec's example payload type: a struct with one integer field `x`. -/
structure PayloadX where
  x : Int
deriving DecidableEq

/-- serde `Deserialize` of `PayloadX` from a JSON value: requires an object
whose `x` member is a number. -/
def decPayloadX : Json → Option PayloadX
  | Json.obj fields =>
    match getKey fields "x" with
    | some (Json.num n) => some ⟨n⟩
    | _ => none
  | _ => none

/-- serde `Deserialize` of `PayloadX` from an object's field list (unknown
fields ignored, as serde does by default). -/
def decPayloadXFields (fields : List (String × Json)) : Option PayloadX :=
  match getKey fields "x" with
  | some (Json.num n) => some ⟨n⟩
  | _ => none

/-- serde `Serialize` of `PayloadX` as a flat field list. -/
def serPayloadXFields (p : PayloadX) : List (String × Json) :=
  [("x", Json.num p.x)]

theorem containsKey_true_of_getKey {fields : List (String × Json)} {k : String}
    {v : Json} (h : getKey fields k = some v) : containsKey fields k = true := by
  simp only [getKey, Option.map_eq_some'] at h
  obtain ⟨p, hp, _⟩ := h
  have hpk := List.find?_some hp
  exact List.any_eq_true.mpr ⟨p, List.mem_of_find?_eq_some hp, hpk⟩

/-- When `_id`, `_key`, `_rev` are all present with string values, the decoder
reaches the `Response` branch, with each optional slot computed from its key. -/
theorem decode_response_eq {T : Type} (decT : Json → Option T)
    (fields : List (String × Json)) (i k r : String)
    (hi : getString fields "_id" = some i)
    (hk : getString fields "_key" = some k)
    (hr : getString fields "_rev" = some r) :
    deserializeDocumentResponse decT (Json.obj fields) =
      DecodeResult.ok (DocumentResponse.Response ⟨i, k, r⟩
        ((getKey fields "old").bind decT)
        ((getKey fields "new").bind decT)
        ((getKey fields "_old_rev").map render)) := by
  simp only [getString] at hi hk hr
  obtain ⟨iv, hiv, hiv2⟩ := Option.bind_eq_some.mp hi
  obtain ⟨kv, hkv, hkv2⟩ := Option.bind_eq_some.mp hk
  obtain ⟨rv, hrv, hrv2⟩ := Option.bind_eq_some.mp hr
  have hck : containsKey fields "_key" = true := containsKey_true_of_getKey hkv
  simp only [deserializeDocumentResponse]
  rw [hck]
  simp only [Bool.true_eq_false, if_false, hiv, hkv, hrv, hiv2, hkv2, hrv2]
  cases hold : getKey fields "old" <;> cases hnew : getKey fields "new" <;>
    cases horv : getKey fields "_old_rev" <;> rfl

/-- C2 (code evaluated at the failing inputs): when `_key` is present but
`_id` is missing, `_rev` is missing, or `_id` is not a string, the decoder
panics (`fault`): the error is an uncatchable fault, not a typed decode error
returned to the caller. -/
theorem c2_malformed_header_faults :
    deserializeDocumentResponse unitDec
        (Json.obj [("_key", Json.str "1")]) = DecodeResult.fault ∧
    deserializeDocumentResponse unitDec
        (Json.obj [("_id", Json.str "c/1"), ("_key", Json.str "1")]) =
      DecodeResult.fault ∧
    deserializeDocumentResponse unitDec
        (Json.obj [("_id", Json.num 5), ("_key", Json.str "1"),
                   ("_rev", Json.str "r1")]) = DecodeResult.fault :=
  ⟨by decide, by decide, by decide⟩

/-- C3: the decoder converts its input with `as_object_mut().unwrap()`, so
every non-object JSON value (null, boolean, number, string, array) makes
deserialization panic (`fault`) instead of returning a decode error. -/
theorem c3_non_object_input_faults (T : Type) (decT : Json → Option T) :
    deserializeDocumentResponse decT Json.null = DecodeResult.fault ∧
    (∀ b, deserializeDocumentResponse decT (Json.bool b) = DecodeResult.fault) ∧
    (∀ n, deserializeDocumentResponse decT (Json.num n) = DecodeResult.fault) ∧
    (∀ s, deserializeDocumentResponse decT (Json.str s) = DecodeResult.fault) ∧
    (∀ es, deserializeDocumentResponse decT (Json.arr es) = DecodeResult.fault) :=
  ⟨rfl, fun _ => rfl, fun _ => rfl, fun _ => rfl, fun _ => rfl⟩

/-- C5 (code evaluated at the failing input): for a response object with
`"_old_rev": "r0"` the decoder stores `Some("\"r0\"")` — the JSON text of the
value produced by `Value::to_string()` (its `Display`), quotes included — not
`Some("r0")`; and a non-string `_old_rev` value is also kept as its JSON text
rather than the slot being treated as absent. -/
theorem c5_old_rev_stored_as_json_text :
    deserializeDocumentResponse unitDec
        (Json.obj [("_id", Json.str "c/1"), ("_key", Json.str "1"),
                   ("_rev", Json.str "r1"), ("_old_rev", Json.str "r0")]) =
      DecodeResult.ok (DocumentResponse.Response ⟨"c/1", "1", "r1"⟩ none none
        (some "\"r0\"")) ∧
    "\"r0\"" ≠ "r0" ∧
    deserializeDocumentResponse unitDec
        (Json.obj [("_id", Json.str "c/1"), ("_key", Json.str "1"),
                   ("_rev", Json.str "r1"), ("_old_rev", Json.num 5)]) =
      DecodeResult.ok (DocumentResponse.Response ⟨"c/1", "1", "r1"⟩ none none
        (some "5")) :=
  ⟨by decide, by decide, by decide⟩

/-- C6: the accessor methods are total over all three variants: `is_silent`
holds exactly on `Silent`, `has_response` exactly on `Response` (both false on
`Err`), and `header`/`old_doc`/`new_doc`/`old_rev` mirror the fields of a
`Response` and return `none` on `Silent` and `Err`. -/
theorem c6_accessors_total (T : Type) (h : DocumentHeader) (o n : Option T)
    (orv : Option String) (e : ArangoError) :
    (DocumentResponse.Silent : DocumentResponse T).is_silent = true ∧
    (DocumentResponse.Response h o n orv).is_silent = false ∧
    (DocumentResponse.Err e : DocumentResponse T).is_silent = false ∧
    (DocumentResponse.Silent : DocumentResponse T).has_response = false ∧
    (DocumentResponse.Response h o n orv).has_response = true ∧
    (DocumentResponse.Err e : DocumentResponse T).has_response = false ∧
    (DocumentResponse.Silent : DocumentResponse T).header = none ∧
    (DocumentResponse.Response h o n orv).header = some h ∧
    (DocumentResponse.Err e : DocumentResponse T).header = none ∧
    (DocumentResponse.Silent : DocumentResponse T).old_doc = none ∧
    (DocumentResponse.Response h o n orv).old_doc = o ∧
    (DocumentResponse.Err e : DocumentResponse T).old_doc = none ∧
    (DocumentResponse.Silent : DocumentResponse T).new_doc = none ∧
    (DocumentResponse.Response h o n orv).new_doc = n ∧
    (DocumentResponse.Err e : DocumentResponse T).new_doc = none ∧
    (DocumentResponse.Silent : DocumentResponse T).old_rev = none ∧
    (DocumentResponse.Response h o n orv).old_rev = orv ∧
    (DocumentResponse.Err e : DocumentResponse T).old_rev = none :=
  ⟨rfl, rfl, rfl, rfl, rfl, rfl, rfl, rfl, rfl, rfl, rfl, rfl, rfl, rfl, rfl,
   rfl, rfl, rfl⟩

/-- C8 counterexample: `DocumentOverwriteMode::Ignore` serializes as the
string `"Ignore"`, which is none of the four lowercase tags the claim
predicts. -/
theorem c8_counterexample :
    DocumentOverwriteMode.serialize DocumentOverwriteMode.Ignore =
      Json.str "Ignore" ∧
    "Ignore" ≠ "ignore" ∧ "Ignore" ≠ "replace" ∧ "Ignore" ≠ "update" ∧
    "Ignore" ≠ "conflict" :=
  ⟨rfl, by decide, by decide, by decide, by decide⟩

/-- C8 amended: the derive carries no `rename_all` attribute, so each variant
serializes as exactly its capitalized variant name — one of `"Ignore"`,
`"Replace"`, `"Update"`, `"Conflict"` — and no variant produces any other
string. -/
theorem c8_amended_capitalized_tags :
    DocumentOverwriteMode.serialize DocumentOverwriteMode.Ignore =
      Json.str "Ignore" ∧
    DocumentOverwriteMode.serialize DocumentOverwriteMode.Replace =
      Json.str "Replace" ∧
    DocumentOverwriteMode.serialize DocumentOverwriteMode.Update =
      Json.str "Update" ∧
    DocumentOverwriteMode.serialize DocumentOverwriteMode.Conflict =
      Json.str "Conflict" ∧
    (∀ m : DocumentOverwriteMode,
      m.serialize = Json.str "Ignore" ∨ m.serialize = Json.str "Replace" ∨
      m.serialize = Json.str "Update" ∨ m.serialize = Json.str "Conflict") :=
  ⟨rfl, rfl, rfl, rfl, fun m => by
    cases m
    · exact Or.inl rfl
    · exact Or.inr (Or.inl rfl)
    · exact Or.inr (Or.inr (Or.inl rfl))
    · exact Or.inr (Or.inr (Or.inr rfl))⟩

/-- C9: for each option-set struct, the default constructor delegates to
`builder().build()`, and with every field left unset the builder produces the
all-`None` value, so the two are structurally equal field by field; and the
default `DocumentReadOptions` is `NoHeader`. -/
theorem c9_default_eq_builder_unset :
    DocumentInsertOptions.default = DocumentInsertOptions.builder.build ∧
    DocumentInsertOptions.builder.build =
      (⟨none, none, none, none, none⟩ : DocumentInsertOptions) ∧
    DocumentUpdateOptions.default = DocumentUpdateOptions.builder.build ∧
    DocumentUpdateOptions.builder.build =
      (⟨none, none, none, none, none, none, none⟩ : DocumentUpdateOptions) ∧
    DocumentReplaceOptions.default = DocumentReplaceOptions.builder.build ∧
    DocumentReplaceOptions.builder.build =
      (⟨none, none, none, none, none⟩ : DocumentReplaceOptions) ∧
    DocumentRemoveOptions.default = DocumentRemoveOptions.builder.build ∧
    DocumentRemoveOptions.builder.build =
      (⟨none, none, none⟩ : DocumentRemoveOptions) ∧
    DocumentReadOptions.default = DocumentReadOptions.NoHeader :=
  ⟨rfl, rfl, rfl, rfl, rfl, rfl, rfl, rfl, rfl⟩

/-- C7 counterexample: serializing a default (all fields unset)
`DocumentRemoveOptions` does not omit the unset fields — `waitForSync` is
present and bound to JSON `null` (the structs carry no `skip_serializing_if`
attribute). -/
theorem c7_counterexample :
    containsKey
      [("waitForSync", serializeOptionBool DocumentRemoveOptions.default.wait_for_sync),
       ("returnOld", serializeOptionBool DocumentRemoveOptions.default.return_old),
       ("silent", serializeOptionBool DocumentRemoveOptions.default.silent)]
      "waitForSync" = true ∧
    DocumentRemoveOptions.default.serialize =
      Json.obj [("waitForSync", Json.null), ("returnOld", Json.null),
                ("silent", Json.null)] :=
  ⟨by decide, rfl⟩

/-- C7 amended: serializing an option set includes every field under its
camelCase name in declaration order; an unset (`None`) field appears as JSON
`null` (not omitted), and a set field appears with its literal boolean
value. -/
theorem c7_amended_null_for_unset :
    serializeOptionBool none = Json.null ∧
    (∀ b, serializeOptionBool (some b) = Json.bool b) ∧
    (∀ o : DocumentInsertOptions, o.serialize =
      Json.obj [("waitForSync", serializeOptionBool o.wait_for_sync),
                ("returnNew", serializeOptionBool o.return_new),
                ("returnOld", serializeOptionBool o.return_old),
                ("silent", serializeOptionBool o.silent),
                ("overwrite", serializeOptionBool o.overwrite)]) ∧
    (∀ o : DocumentUpdateOptions, o.serialize =
      Json.obj [("keepNull", serializeOptionBool o.keep_null),
                ("mergeObjects", serializeOptionBool o.merge_objects),
                ("waitForSync", serializeOptionBool o.wait_for_sync),
                ("ignoreRevs", serializeOptionBool o.ignore_revs),
                ("returnNew", serializeOptionBool o.return_new),
                ("returnOld", serializeOptionBool o.return_old),
                ("silent", serializeOptionBool o.silent)]) ∧
    (∀ o : DocumentReplaceOptions, o.serialize =
      Json.obj [("waitForSync", serializeOptionBool o.wait_for_sync),
                ("ignoreRevs", serializeOptionBool o.ignore_revs),
                ("returnNew", serializeOptionBool o.return_new),
                ("returnOld", serializeOptionBool o.return_old),
                ("silent", serializeOptionBool o.silent)]) ∧
    (∀ o : DocumentRemoveOptions, o.serialize =
      Json.obj [("waitForSync", serializeOptionBool o.wait_for_sync),
                ("returnOld", serializeOptionBool o.return_old),
                ("silent", serializeOptionBool o.silent)]) :=
  ⟨rfl, fun _ => rfl, fun _ => rfl, fun _ => rfl, fun _ => rfl, fun _ => rfl⟩

/-- C1 counterexample: `{"_key": "1"}` contains `_key`, yet decoding does not
produce the `Response` variant — the decoder panics (`fault`) on the missing
`_id`. -/
theorem c1_counterexample :
    deserializeDocumentResponse unitDec (Json.obj [("_key", Json.str "1")]) =
      DecodeResult.fault ∧
    ¬ ∃ h o n orv, deserializeDocumentResponse unitDec
        (Json.obj [("_key", Json.str "1")]) =
        DecodeResult.ok (DocumentResponse.Response h o n orv) := by
  refine ⟨by decide, ?_⟩
  rintro ⟨h, o, n, orv, heq⟩
  rw [show deserializeDocumentResponse unitDec
      (Json.obj [("_key", Json.str "1")]) = DecodeResult.fault from by decide] at heq
  exact DecodeResult.noConfusion heq

/-- C1 amended: for any payload type, a JSON object without a `_key` key
decodes to `Silent` (in particular `{}` does); an object whose `_id`, `_key`
and `_rev` are all present with string values decodes to the `Response`
variant (without all three as strings the decoder panics instead); and the
decoder never produces the `Err` variant for any input. -/
theorem c1_amended_classification (T : Type) (decT : Json → Option T) :
    (∀ fields, containsKey fields "_key" = false →
      deserializeDocumentResponse decT (Json.obj fields) =
        DecodeResult.ok DocumentResponse.Silent) ∧
    (deserializeDocumentResponse decT (Json.obj []) =
      DecodeResult.ok DocumentResponse.Silent) ∧
    (∀ fields i k r, getString fields "_id" = some i →
      getString fields "_key" = some k → getString fields "_rev" = some r →
      deserializeDocumentResponse decT (Json.obj fields) =
        DecodeResult.ok (DocumentResponse.Response ⟨i, k, r⟩
          ((getKey fields "old").bind decT) ((getKey fields "new").bind decT)
          ((getKey fields "_old_rev").map render))) ∧
    (∀ j e, deserializeDocumentResponse decT j ≠
      DecodeResult.ok (DocumentResponse.Err e)) := by
  refine ⟨?_, rfl, ?_, ?_⟩
  · intro fields hno
    simp [deserializeDocumentResponse, hno]
  · intro fields i k r hi hk hr
    exact decode_response_eq decT fields i k r hi hk hr
  · intro j e
    cases j <;> simp only [deserializeDocumentResponse] <;>
      first
        | exact fun heq => DecodeResult.noConfusion heq
        | · intro heq
            split at heq
            · exact DocumentResponse.noConfusion (DecodeResult.ok.inj heq)
            · split at heq <;>
                try exact DecodeResult.noConfusion heq
              split at heq <;>
                try exact DecodeResult.noConfusion heq
              split at heq <;>
                try exact DecodeResult.noConfusion heq
              split at heq <;>
                try exact DecodeResult.noConfusion heq
              split at heq <;>
                try exact DecodeResult.noConfusion heq
              split at heq <;>
                try exact DecodeResult.noConfusion heq
              exact DocumentResponse.noConfusion (DecodeResult.ok.inj heq)

/-- C1 witness: the amended classification applied to `{"silent": true}`
(no `_key`, so `Silent`) and to a well-formed header object (`Response`). -/
theorem c1_amended_witness :
    deserializeDocumentResponse unitDec (Json.obj [("silent", Json.bool true)]) =
      DecodeResult.ok DocumentResponse.Silent ∧
    deserializeDocumentResponse unitDec
        (Json.obj [("_id", Json.str "c/1"), ("_key", Json.str "1"),
                   ("_rev", Json.str "r1")]) =
      DecodeResult.ok (DocumentResponse.Response ⟨"c/1", "1", "r1"⟩
        none none none) := by
  constructor
  · exact (c1_amended_classification Unit unitDec).1
      [("silent", Json.bool true)] (by decide)
  · exact (c1_amended_classification Unit unitDec).2.2.1
      [("_id", Json.str "c/1"), ("_key", Json.str "1"), ("_rev", Json.str "r1")]
      "c/1" "1" "r1" rfl rfl rfl

/-- C4: on an object whose `_id`, `_key`, `_rev` are present as strings, a
missing or unparseable `old` (resp. `new`) value never aborts the decode: the
result is still the `Response` variant with that slot `None`. -/
theorem c4_tolerant_old_new (T : Type) (decT : Json → Option T)
    (fields : List (String × Json)) (i k r : String)
    (hi : getString fields "_id" = some i)
    (hk : getString fields "_key" = some k)
    (hr : getString fields "_rev" = some r) :
    ((getKey fields "old").bind decT = none →
      deserializeDocumentResponse decT (Json.obj fields) =
        DecodeResult.ok (DocumentResponse.Response ⟨i, k, r⟩ none
          ((getKey fields "new").bind decT)
          ((getKey fields "_old_rev").map render))) ∧
    ((getKey fields "new").bind decT = none →
      deserializeDocumentResponse decT (Json.obj fields) =
        DecodeResult.ok (DocumentResponse.Response ⟨i, k, r⟩
          ((getKey fields "old").bind decT) none
          ((getKey fields "_old_rev").map render))) := by
  constructor
  · intro hnone
    rw [decode_response_eq decT fields i k r hi hk hr, hnone]
  · intro hnone
    rw [decode_response_eq decT fields i k r hi hk hr, hnone]

/-- C4 witness: `{"_id":"c/1","_key":"1","_rev":"r1","old":"not-an-object"}`
against the object-requiring payload type decodes to `Response` with
`old = None` rather than failing. -/
theorem c4_tolerant_witness :
    deserializeDocumentResponse decPayloadX
        (Json.obj [("_id", Json.str "c/1"), ("_key", Json.str "1"),
                   ("_rev", Json.str "r1"), ("old", Json.str "not-an-object")]) =
      DecodeResult.ok (DocumentResponse.Response ⟨"c/1", "1", "r1"⟩
        none none none) :=
  (c4_tolerant_old_new PayloadX decPayloadX
    [("_id", Json.str "c/1"), ("_key", Json.str "1"), ("_rev", Json.str "r1"),
     ("old", Json.str "not-an-object")] "c/1" "1" "r1" rfl rfl rfl).1 rfl

theorem filter_eq_self_of_forall {α : Type} (p : α → Bool) :
    ∀ l : List α, (∀ a ∈ l, p a = true) → l.filter p = l
  | [], _ => rfl
  | a :: l, h => by
    have ha := h a (List.mem_cons_self a l)
    have hl := filter_eq_self_of_forall p l (fun b hb => h b (List.mem_cons_of_mem a hb))
    simp [List.filter_cons, ha, hl]

/-- C10: serializing a `Document` envelope whose identity triple is entirely
non-empty together with a flat payload, then deserializing it back,
reproduces the identical header and payload. `serT`/`decT` are the payload
type's own serde instances; the payload must round-trip and not claim the
identity keys. -/
theorem c10_envelope_roundtrip (T : Type) (serT : T → List (String × Json))
    (decT : List (String × Json) → Option T) (h : DocumentHeader) (t : T)
    (hid : h._id ≠ "") (hkey : h._key ≠ "") (hrev : h._rev ≠ "")
    (hdisj : ∀ p ∈ serT t, p.1 ≠ "_id" ∧ p.1 ≠ "_key" ∧ p.1 ≠ "_rev")
    (hrt : decT (serT t) = some t) :
    Document.deserialize decT (Document.serialize serT ⟨h, t⟩) = some ⟨h, t⟩ := by
  have hser : Document.serialize serT ⟨h, t⟩ =
      Json.obj (("_id", Json.str h._id) :: ("_key", Json.str h._key) ::
        ("_rev", Json.str h._rev) :: serT t) := by
    simp [Document.serialize, DocumentHeader.serializeFields, hid, hkey, hrev]
  have hstrip : stripIdentityKeys (serT t) = serT t := by
    apply filter_eq_self_of_forall
    intro p hp
    obtain ⟨h1, h2, h3⟩ := hdisj p hp
    simp [h1, h2, h3]
  rw [hser]
  show (match decT (stripIdentityKeys (serT t)) with
    | some t' => some (⟨⟨h._id, h._key, h._rev⟩, t'⟩ : Document T)
    | none => none) = some ⟨h, t⟩
  rw [hstrip, hrt]

/-- C10 witness: the round-trip at the spec's example — identity
`("c/1","1","r1")` with payload `{x: 1}`. -/
theorem c10_envelope_roundtrip_witness :
    Document.deserialize decPayloadXFields
        (Document.serialize serPayloadXFields ⟨⟨"c/1", "1", "r1"⟩, ⟨1⟩⟩) =
      some ⟨⟨"c/1", "1", "r1"⟩, ⟨1⟩⟩ := by
  apply c10_envelope_roundtrip PayloadX serPayloadXFields decPayloadXFields
      ⟨"c/1", "1", "r1"⟩ ⟨1⟩ (by decide) (by decide) (by decide)
  · intro p hp
    have hp1 : p = ("x", Json.num 1) := by
      simpa [serPayloadXFields] using hp
    rw [hp1]
    exact ⟨by decide, by decide, by decide⟩
  · rfl

end Arangors
